import Mathlib

/-! # rest-api-music: the handlers of `main.go`

A shallow embedding of the seven gin handlers and the two row fetchers of
`src/main.go`, with theorems about the read-aggregation path, the
single-record path and the error paths of the write handlers.

Modelling conventions

* `int64` identifiers are `Int`: the program never does arithmetic on
  them, it only copies them, compares them as map keys and prints them in
  decimal.
* `float64` prices are carried as their IEEE-754 bit pattern; the program
  only copies them.
* A Go slice is a `List`; the nil slice and the empty slice are both `[]`.
* A Go `map[int64]V` is a key/value list with at most one entry per key;
  reading an absent key gives the zero value of `V`. The order in which
  `range` visits the keys is chosen by the runtime (`MapRange`).
* The store behind the global `db` handle is a state machine over an
  arbitrary state type; the results of `Query`, `QueryRow`, `Exec`, of every
  `Scan` and of `BindJSON` are whatever the store and the request decide.
* A handler transforms a `World`: the store state, the statements sent to
  the store so far, the response writes made so far and a panic marker.
* A response write is a call of `c.JSON` or `c.IndentedJSON` made by the
  handler. What gin does on its own (aborting a request whose body does not
  bind, recovering from a panic) is outside `main.go` and is not recorded;
  neither are `rows.Close()` and the console output of `fmt.Println`.
-/

namespace MusicApi

/-! ## Data model (main.go 19-42) -/

/-- A `float64`, kept as its 64-bit pattern. -/
structure Float64 where
  bits : Nat
  deriving DecidableEq, Repr

structure Album where
  ID : Int
  Title : String
  Price : Float64
  LabelId : Int
  deriving DecidableEq, Repr

structure Artist where
  ID : Int
  Name : String
  AlbumId : Int
  deriving DecidableEq, Repr

structure Label where
  ID : Int
  Name : String
  Country : String
  deriving DecidableEq, Repr

structure AlbumOutput extends Album where
  Artists : List Artist
  Label : Label
  deriving DecidableEq, Repr

/-- Zero value of `Album` (`var album Album`). -/
def Album.zero : Album := ⟨0, "", ⟨0⟩, 0⟩

/-- Zero value of `Artist`. -/
def Artist.zero : Artist := ⟨0, "", 0⟩

/-- Zero value of `Label`. -/
def Label.zero : Label := ⟨0, "", ""⟩

/-! ## Errors, statements, responses -/

/-- An `error` value: the sentinel `sql.ErrNoRows`, or any other error with
its text. `errors.Is(err, sql.ErrNoRows)` is `isErrNoRows`. -/
inductive GoErr where
  | ErrNoRows
  | other (text : String)
  deriving DecidableEq, Repr

/-- The method `err.Error()`. -/
def GoErr.Error : GoErr → String
  | .ErrNoRows => "sql: no rows in result set"
  | .other text => text

def GoErr.isErrNoRows : GoErr → Bool
  | .ErrNoRows => true
  | .other _ => false

/-- An argument bound to a `?` placeholder. -/
inductive Arg where
  | str (s : String)
  | int (i : Int)
  | float (f : Float64)
  deriving DecidableEq, Repr

/-- A statement sent to the store through the `db` handle. -/
inductive Stmt where
  | Query (text : String)
  | QueryRow (text : String) (args : List Arg)
  | Exec (text : String) (args : List Arg)
  deriving DecidableEq, Repr

/-- The JSON value handed to `c.JSON` / `c.IndentedJSON`. -/
inductive Body where
  | error (text : String)
  | message (text : String)
  | album (a : Album)
  | artist (a : Artist)
  | label (l : Label)
  | albumOutput (o : AlbumOutput)
  | albumOutputs (os : List AlbumOutput)
  deriving DecidableEq, Repr

/-- One response write: the status code, whether it was `IndentedJSON`, and
the value serialised. -/
structure Response where
  code : Nat
  indented : Bool
  body : Body
  deriving DecidableEq, Repr

def StatusOK : Nat := 200
def StatusCreated : Nat := 201
def StatusBadRequest : Nat := 400
def StatusNotFound : Nat := 404

/-! ## The store and the request -/

/-- A result row: what `Scan` does on it for each of the three destination
shapes used in the program. `Scan` gets the destination as it was and gives
the destination as it leaves it, with the error it returns (if any). For a
`*sql.Row` from `QueryRow` the error may be `sql.ErrNoRows`. -/
structure Row where
  ScanAlbum : Album → Album × Option GoErr
  ScanArtist : Artist → Artist × Option GoErr
  ScanLabel : Label → Label × Option GoErr

/-- The store behind `db`, over a state type `σ`. `Exec` gives, on success,
the value `res.LastInsertId()` reports. -/
structure DB (σ : Type) where
  Query : σ → String → σ × Except GoErr (List Row)
  QueryRow : σ → String → List Arg → σ × Row
  Exec : σ → String → List Arg → σ × Except GoErr Int

/-- The part of `*gin.Context` the handlers read. `BindJSON` is given per
destination type, as `Scan` is. -/
structure Request where
  Param : String → String
  Query : String → String
  BindAlbum : Album → Album × Option GoErr
  BindArtist : Artist → Artist × Option GoErr
  BindLabel : Label → Label × Option GoErr

structure World (σ : Type) where
  store : σ
  stmts : List Stmt
  writes : List Response
  panic : Option String

variable {σ : Type}

/-- The call `c.JSON(code, body)`. -/
def World.JSON (w : World σ) (code : Nat) (body : Body) : World σ :=
  { w with writes := w.writes ++ [⟨code, false, body⟩] }

/-- The call `c.IndentedJSON(code, body)`. -/
def World.IndentedJSON (w : World σ) (code : Nat) (body : Body) : World σ :=
  { w with writes := w.writes ++ [⟨code, true, body⟩] }

/-- The call `db.Query(text)`. -/
def World.Query (w : World σ) (db : DB σ) (text : String) :
    World σ × Except GoErr (List Row) :=
  ({ w with store := (db.Query w.store text).1, stmts := w.stmts ++ [Stmt.Query text] },
    (db.Query w.store text).2)

/-- The call `db.QueryRow(text, args...)`. -/
def World.QueryRow (w : World σ) (db : DB σ) (text : String) (args : List Arg) :
    World σ × Row :=
  ({ w with store := (db.QueryRow w.store text args).1,
            stmts := w.stmts ++ [Stmt.QueryRow text args] },
    (db.QueryRow w.store text args).2)

/-- The call `db.Exec(text, args...)`. -/
def World.Exec (w : World σ) (db : DB σ) (text : String) (args : List Arg) :
    World σ × Except GoErr Int :=
  ({ w with store := (db.Exec w.store text args).1,
            stmts := w.stmts ++ [Stmt.Exec text args] },
    (db.Exec w.store text args).2)

/-! ## Go maps keyed by `int64` -/

/-- A `map[int64]V`: key/value pairs, one per key, in first-insertion
order (the order is not observable except through `MapRange`). -/
abbrev GoMap (V : Type) := List (Int × V)

/-- The assignment `m[k] = v`. -/
def GoMap.set {V : Type} : GoMap V → Int → V → GoMap V
  | [], k, v => [(k, v)]
  | (k', v') :: m, k, v =>
    if k' = k then (k, v) :: m else (k', v') :: GoMap.set m k v

/-- The read `m[k]`, with `zero` the zero value of `V`. -/
def GoMap.get {V : Type} (m : GoMap V) (k : Int) (zero : V) : V :=
  (List.lookup k m).getD zero

/-- The keys present in the map. -/
def GoMap.keys {V : Type} (m : GoMap V) : List Int :=
  m.map Prod.fst

/-- The order in which `for k := range m` visits the keys of a map: some
rearrangement of them, each key visited once. -/
structure MapRange where
  order : List Int → List Int
  perm : ∀ ks, (order ks).Perm ks

/-! ## Row fetchers (main.go 44-93) -/

/-- `strconv.FormatInt(i, 10)`. -/
def FormatInt (i : Int) : String := toString i

/-- `strings.Join(lo.Map(ids, FormatInt), ",")`. -/
def joinIds (ids : List Int) : String :=
  ",".intercalate (ids.map FormatInt)

/-- The text built by `fmt.Sprintf` at main.go 47-52. -/
def labelsQuery (labelIds : List Int) : String :=
  "SELECT * FROM labels WHERE id in (" ++ joinIds labelIds ++ ")"

/-- The text built by `fmt.Sprintf` at main.go 72-77. -/
def artistsQuery (albumIds : List Int) : String :=
  "SELECT * FROM artists WHERE album_id in (" ++ joinIds albumIds ++ ")"

/-- The loop `for rows.Next()` of main.go 58-65, `labels` accumulated. -/
def scanLabels : List Row → List Label → Except GoErr (List Label)
  | [], labels => .ok labels
  | row :: rows, labels =>
    match row.ScanLabel Label.zero with
    | (_, some err) => .error err
    | (label, none) => scanLabels rows (labels ++ [label])

/-- The loop `for rows.Next()` of main.go 84-91. -/
def scanArtists : List Row → List Artist → Except GoErr (List Artist)
  | [], artists => .ok artists
  | row :: rows, artists =>
    match row.ScanArtist Artist.zero with
    | (_, some err) => .error err
    | (artist, none) => scanArtists rows (artists ++ [artist])

def getLabelsByLabelIds (db : DB σ) (w : World σ) (labelIds : List Int) :
    World σ × Except GoErr (List Label) :=
  match w.Query db (labelsQuery labelIds) with
  | (w1, .error err) => (w1, .error err)
  | (w1, .ok rows) => (w1, scanLabels rows [])

def getArtistsByAlbumIds (db : DB σ) (w : World σ) (albumIds : List Int) :
    World σ × Except GoErr (List Artist) :=
  match w.Query db (artistsQuery albumIds) with
  | (w1, .error err) => (w1, .error err)
  | (w1, .ok rows) => (w1, scanArtists rows [])

/-! ## getAlbums (main.go 95-169) -/

/-- The query text of main.go 99-104. -/
def albumsQuery (c : Request) : String :=
  if (c.Query "q").utf8ByteSize > 0 then
    "SELECT * FROM albums" ++ (" WHERE title ILIKE '%" ++ c.Query "q" ++ "%'")
  else
    "SELECT * FROM albums"

/-- The loop of main.go 111-121 over the album rows; the accumulators are
`albumIds`, `albums`, `labelIds`. -/
def scanAlbums : List Row → List Int → List Album → List Int →
    Except GoErr (List Int × List Album × List Int)
  | [], albumIds, albums, labelIds => .ok (albumIds, albums, labelIds)
  | row :: rows, albumIds, albums, labelIds =>
    match row.ScanAlbum Album.zero with
    | (_, some err) => .error err
    | (album, none) =>
      scanAlbums rows (albumIds ++ [album.ID]) (albums ++ [album]) (labelIds ++ [album.LabelId])

/-- The loop of main.go 129-132. -/
def groupArtists (artistsList : List Artist) : GoMap (List Artist) :=
  artistsList.foldl
    (fun m artist => GoMap.set m artist.AlbumId (GoMap.get m artist.AlbumId [] ++ [artist])) []

/-- The loop of main.go 134-137. -/
def labelIdSet (labelIds : List Int) : GoMap Bool :=
  labelIds.foldl (fun m labelId => GoMap.set m labelId true) []

/-- The loop of main.go 138-141: the keys of `labelIdsMap` in range order. -/
def distinctLabelIds (rt : MapRange) (labelIds : List Int) : List Int :=
  rt.order (GoMap.keys (labelIdSet labelIds))

/-- The loop of main.go 149-152. -/
def indexLabels (labelsList : List Label) : GoMap Label :=
  labelsList.foldl (fun m label => GoMap.set m label.ID label) []

/-- The loop of main.go 155-167. `err` is the function-level variable last
assigned by the label fetch; the loop returns it as soon as it is seen
non-nil, after the first element was built. -/
def buildOutputs (artistsByAlbumIdMap : GoMap (List Artist)) (labelsListMap : GoMap Label)
    (err : Option GoErr) : List Album → List AlbumOutput → Except GoErr (List AlbumOutput)
  | [], albumOutputs => .ok albumOutputs
  | album :: albums, albumOutputs =>
    let artists := GoMap.get artistsByAlbumIdMap album.ID []
    let label := GoMap.get labelsListMap album.LabelId Label.zero
    let out : AlbumOutput := { toAlbum := album, Artists := artists, Label := label }
    match err with
    | some e => .error e
    | none => buildOutputs artistsByAlbumIdMap labelsListMap err albums (albumOutputs ++ [out])

def getAlbums (db : DB σ) (rt : MapRange) (c : Request) (w : World σ) : World σ :=
  match w.Query db (albumsQuery c) with
  | (w1, .error err) => w1.IndentedJSON StatusBadRequest (.error err.Error)
  | (w1, .ok rows) =>
    match scanAlbums rows [] [] [] with
    | .error err => w1.IndentedJSON 500 (.error err.Error)
    | .ok (albumIds, albums, labelIds) =>
      match getArtistsByAlbumIds db w1 albumIds with
      | (w2, .error err) => w2.IndentedJSON 500 (.error err.Error)
      | (w2, .ok artistsList) =>
        let artistsByAlbumIdMap := groupArtists artistsList
        match getLabelsByLabelIds db w2 (distinctLabelIds rt labelIds) with
        | (w3, .error err) => w3.IndentedJSON 500 (.error err.Error)
        | (w3, .ok labelsList) =>
          let labelsListMap := indexLabels labelsList
          match buildOutputs artistsByAlbumIdMap labelsListMap none albums [] with
          | .error err => w3.IndentedJSON StatusBadRequest (.error err.Error)
          | .ok albumOutputs => w3.IndentedJSON StatusOK (.albumOutputs albumOutputs)

/-! ## getAlbumById (main.go 171-203) -/

/-- The handler `getAlbumById`. Indexing `labels[0]` on an empty slice is a
run-time panic: the handler stops there, having written nothing. -/
def getAlbumById (db : DB σ) (c : Request) (w : World σ) : World σ :=
  match w.QueryRow db "SELECT * FROM albums WHERE id=?" [.str (c.Param "id")] with
  | (w1, row) =>
    match row.ScanAlbum Album.zero with
    | (_, some err) =>
      if err.isErrNoRows then w1.JSON StatusNotFound (.message "album not found")
      else w1.JSON StatusBadRequest (.error err.Error)
    | (album, none) =>
      match getArtistsByAlbumIds db w1 [album.ID] with
      | (w2, .error err) => w2.JSON StatusBadRequest (.error err.Error)
      | (w2, .ok artists) =>
        match getLabelsByLabelIds db w2 [album.LabelId] with
        | (w3, .error err) => w3.JSON StatusBadRequest (.error err.Error)
        | (w3, .ok labels) =>
          match labels with
          | [] => { w3 with panic := some "runtime error: index out of range [0] with length 0" }
          | label :: _ =>
            w3.JSON StatusOK (.albumOutput { toAlbum := album, Artists := artists, Label := label })

/-! ## The write handlers (main.go 205-309) -/

/-- The handler `postAlbums`. After a failed read-back scan neither branch
of main.go 219-224 returns, so control reaches line 225. -/
def postAlbums (db : DB σ) (c : Request) (w : World σ) : World σ :=
  match c.BindAlbum Album.zero with
  | (_, some err) => w.IndentedJSON StatusBadRequest (.error err.Error)
  | (album, none) =>
    match w.Exec db "INSERT INTO albums (title,price,label_id) VALUES(?,?,?) "
        [.str album.Title, .float album.Price, .int album.LabelId] with
    | (w1, .error err) => w1.IndentedJSON StatusBadRequest (.error err.Error)
    | (w1, .ok id) =>
      match w1.QueryRow db "SELECT * FROM albums WHERE id=?" [.int id] with
      | (w2, row) =>
        match row.ScanAlbum album with
        | (album, some err) =>
          let w3 := if err.isErrNoRows then w2.JSON StatusNotFound (.message "album not found")
                    else w2
          let w4 := w3.IndentedJSON StatusBadRequest (.error err.Error)
          w4.IndentedJSON StatusCreated (.album album)
        | (album, none) => w2.IndentedJSON StatusCreated (.album album)

/-- The handler `postArtist` (the `fmt.Println` of line 243 writes to the
console only and is left out). -/
def postArtist (db : DB σ) (c : Request) (w : World σ) : World σ :=
  match c.BindArtist Artist.zero with
  | (_, some err) => w.IndentedJSON StatusBadRequest (.error err.Error)
  | (artist, none) =>
    match w.Exec db "INSERT INTO artists (name, album_id) VALUES(?,?) "
        [.str artist.Name, .int artist.AlbumId] with
    | (w1, .error err) => w1.IndentedJSON StatusBadRequest (.error err.Error)
    | (w1, .ok id) =>
      match w1.QueryRow db "SELECT * FROM artists WHERE id=?" [.int id] with
      | (w2, row) =>
        match row.ScanArtist artist with
        | (artist, some err) =>
          let w3 := if err.isErrNoRows then w2.JSON StatusNotFound (.message "artist not found")
                    else w2
          w3.IndentedJSON StatusCreated (.artist artist)
        | (artist, none) => w2.IndentedJSON StatusCreated (.artist artist)

/-- The handler `postLabel`. The bind-failure branch of main.go 252-254 has
no `return`: control goes on to the `INSERT` with `label` as binding left
it. -/
def postLabel (db : DB σ) (c : Request) (w : World σ) : World σ :=
  let label := (c.BindLabel Label.zero).1
  let w0 := match (c.BindLabel Label.zero).2 with
    | some _ => w.IndentedJSON StatusBadRequest (.message "label not found")
    | none => w
  match w0.Exec db "INSERT INTO labels (name, country) VALUES(?,?)"
      [.str label.Name, .str label.Country] with
  | (w1, .error err) => w1.IndentedJSON StatusBadRequest (.error err.Error)
  | (w1, .ok id) =>
    match w1.QueryRow db "SELECT * FROM labels WHERE id=?" [.int id] with
    | (w2, row) =>
      match row.ScanLabel label with
      | (label, some _) =>
        (w2.IndentedJSON StatusNotFound (.message "label not found")).IndentedJSON
          StatusCreated (.label label)
      | (label, none) => w2.IndentedJSON StatusCreated (.label label)

/-- The handler `putAlbums`. -/
def putAlbums (db : DB σ) (c : Request) (w : World σ) : World σ :=
  match c.BindAlbum Album.zero with
  | (_, some err) => w.IndentedJSON StatusBadRequest (.error err.Error)
  | (album, none) =>
    match w.Exec db "UPDATE albums SET title=?, price=?, label_id=? WHERE id =?"
        [.str album.Title, .float album.Price, .int album.LabelId, .str (c.Param "id")] with
    | (w1, .error err) => w1.IndentedJSON StatusBadRequest (.error err.Error)
    | (w1, .ok _) =>
      match w1.QueryRow db "SELECT * FROM albums WHERE id=?" [.str (c.Param "id")] with
      | (w2, row) =>
        match row.ScanAlbum album with
        | (_, some err) =>
          if err.isErrNoRows then w2.JSON StatusNotFound (.message "album not found")
          else w2.JSON StatusBadRequest (.error err.Error)
        | (album, none) => w2.JSON StatusOK (.album album)

/-- The handler `deleteAlbumsById`. -/
def deleteAlbumsById (db : DB σ) (c : Request) (w : World σ) : World σ :=
  match w.Exec db "DELETE FROM albums WHERE id=?" [.str (c.Param "id")] with
  | (w1, .error err) =>
    if err.isErrNoRows then w1.JSON StatusNotFound (.message "album not found")
    else w1.JSON StatusBadRequest (.error err.Error)
  | (w1, .ok _) => w1.JSON StatusOK (.message "album deleted")

/-! ## A small concrete store, for evaluating the handlers -/

/-- A row that scans to the given album, artist and label. -/
def Row.ofValues (album : Album) (artist : Artist) (label : Label) : Row :=
  { ScanAlbum := fun _ => (album, none)
    ScanArtist := fun _ => (artist, none)
    ScanLabel := fun _ => (label, none) }

/-- A `*sql.Row` with no row behind it: every `Scan` leaves the destination
alone and returns `sql.ErrNoRows`. -/
def Row.noRows : Row :=
  { ScanAlbum := fun d => (d, some .ErrNoRows)
    ScanArtist := fun d => (d, some .ErrNoRows)
    ScanLabel := fun d => (d, some .ErrNoRows) }

/-- A store without state that answers every `Query` with the rows `rows`,
every `QueryRow` with `row`, and every `Exec` with insert id `7`. -/
def fixedDB (rows : List Row) (row : Row) : DB Unit :=
  { Query := fun s _ => (s, .ok rows)
    QueryRow := fun s _ _ => (s, row)
    Exec := fun s _ _ => (s, .ok 7) }

/-- A request with path parameter and query string both empty, whose body
binds to the zero values. -/
def plainRequest : Request :=
  { Param := fun _ => ""
    Query := fun _ => ""
    BindAlbum := fun d => (d, none)
    BindArtist := fun d => (d, none)
    BindLabel := fun d => (d, none) }

/-- A request whose body fails to bind with the error text `msg`, leaving
the destination untouched. -/
def badBodyRequest (msg : String) : Request :=
  { Param := fun _ => ""
    Query := fun _ => ""
    BindAlbum := fun d => (d, some (.other msg))
    BindArtist := fun d => (d, some (.other msg))
    BindLabel := fun d => (d, some (.other msg)) }

/-- The world before a handler runs. -/
def World.start : World Unit :=
  { store := (), stmts := [], writes := [], panic := none }

/-- Map iteration in key-list order. -/
def MapRange.inOrder : MapRange :=
  { order := fun ks => ks, perm := fun ks => List.Perm.refl ks }

/-- Map iteration in reverse key-list order. -/
def MapRange.reversed : MapRange :=
  { order := fun ks => ks.reverse, perm := fun ks => List.reverse_perm ks }

/-! ## Reading a query's identifier list back

These functions are not part of the program. They are the reader's side of
`joinIds`: they say which identifiers a comma-joined decimal list holds, so
that what a query text carries can be stated. -/

/-- The value of a run of decimal digits. -/
def readNat (cs : List Char) : Nat :=
  cs.foldl (fun acc c => acc * 10 + (c.toNat - 48)) 0

/-- The value of a decimal numeral with an optional leading minus sign. -/
def readInt : List Char → Int
  | [] => 0
  | c :: cs => if c = '-' then -(readNat cs : Int) else (readNat (c :: cs) : Int)

/-- The pieces of a text between its commas. -/
def splitCommas : List Char → List (List Char)
  | [] => [[]]
  | c :: cs =>
    if c = ',' then [] :: splitCommas cs
    else
      match splitCommas cs with
      | [] => [[c]]
      | p :: ps => (c :: p) :: ps

/-- The identifiers a reader finds in a comma-separated decimal list; the
empty text lists none. -/
def readIds (s : String) : List Int :=
  if s.data = [] then [] else (splitCommas s.data).map readInt

/-- Each piece preceded by a comma. -/
def commaEach : List (List Char) → List Char
  | [] => []
  | p :: ps => ',' :: (p ++ commaEach ps)

/-! ## Sample data -/

/-- Two album rows, two artist rows and two label rows at once: read as
albums they are album 1 (label 1) and album 2 (label 9); read as artists,
both belong to album 1; read as labels, they are labels 1 and 3. -/
def sampleRows : List Row :=
  [ Row.ofValues ⟨1, "X", ⟨0⟩, 1⟩ ⟨1, "Y", 1⟩ ⟨1, "Indie Co", "US"⟩,
    Row.ofValues ⟨2, "Z", ⟨5⟩, 9⟩ ⟨2, "W", 1⟩ ⟨3, "Other", "UK"⟩ ]

def sampleAlbums : List Album := [⟨1, "X", ⟨0⟩, 1⟩, ⟨2, "Z", ⟨5⟩, 9⟩]

def sampleArtists : List Artist := [⟨1, "Y", 1⟩, ⟨2, "W", 1⟩]

def sampleLabels : List Label := [⟨1, "Indie Co", "US"⟩, ⟨3, "Other", "UK"⟩]

/-- The store that answers every query with `sampleRows`. -/
def sampleDB : DB Unit := fixedDB sampleRows Row.noRows

/-- A `*sql.Row` that fills in the identifier `id` and leaves the other
fields of the destination as they are, without error. -/
def Row.assignId (id : Int) : Row :=
  { ScanAlbum := fun d => ({ d with ID := id }, none)
    ScanArtist := fun d => ({ d with ID := id }, none)
    ScanLabel := fun d => ({ d with ID := id }, none) }

/-- A store on which every statement succeeds: inserts get id `7` and the
read-back gives the inserted values with that id. -/
def echoDB : DB Unit := fixedDB [] (Row.assignId 7)

/-- A store that rejects the two query texts with an empty `in ()` list,
as a SQL parser does, and answers every other query with no rows. -/
def strictDB : DB Unit :=
  { Query := fun s text =>
      if text = "SELECT * FROM labels WHERE id in ()"
          ∨ text = "SELECT * FROM artists WHERE album_id in ()" then
        (s, .error (.other "syntax error near )"))
      else (s, .ok [])
    QueryRow := fun s _ _ => (s, Row.noRows)
    Exec := fun s _ _ => (s, .ok 7) }

/-! ## Go map facts -/

theorem GoMap.lookup_cons_eq {V : Type} (m : GoMap V) (k : Int) (v : V) :
    List.lookup k ((k, v) :: m) = some v := by
  simp [List.lookup]

theorem GoMap.lookup_cons_ne {V : Type} (m : GoMap V) (k k' : Int) (v : V) (h : k' ≠ k) :
    List.lookup k' ((k, v) :: m) = List.lookup k' m := by
  have hb : (k' == k) = false := by simpa using h
  simp [List.lookup, hb]

theorem GoMap.lookup_set {V : Type} (m : GoMap V) (k k' : Int) (v : V) :
    List.lookup k' (GoMap.set m k v) = if k' = k then some v else List.lookup k' m := by
  induction m with
  | nil =>
    by_cases h : k' = k
    · subst h
      simp [GoMap.set, GoMap.lookup_cons_eq]
    · simp [GoMap.set, GoMap.lookup_cons_ne _ _ _ _ h, h]
  | cons p m ih =>
    obtain ⟨k0, v0⟩ := p
    by_cases h0 : k0 = k
    · subst h0
      by_cases h : k' = k0
      · subst h
        simp [GoMap.set, GoMap.lookup_cons_eq]
      · simp [GoMap.set, GoMap.lookup_cons_ne _ _ _ _ h, h]
    · by_cases h2 : k' = k0
      · subst h2
        simp [GoMap.set, h0, GoMap.lookup_cons_eq]
      · simp [GoMap.set, h0, GoMap.lookup_cons_ne _ _ _ _ h2, ih]

theorem GoMap.get_set {V : Type} (m : GoMap V) (k k' : Int) (v zero : V) :
    GoMap.get (GoMap.set m k v) k' zero = if k' = k then v else GoMap.get m k' zero := by
  unfold GoMap.get
  rw [GoMap.lookup_set]
  split <;> simp

theorem GoMap.mem_keys_set {V : Type} (m : GoMap V) (k x : Int) (v : V) :
    x ∈ GoMap.keys (GoMap.set m k v) ↔ x = k ∨ x ∈ GoMap.keys m := by
  induction m with
  | nil => simp [GoMap.set, GoMap.keys]
  | cons p m ih =>
    obtain ⟨k0, v0⟩ := p
    by_cases h0 : k0 = k
    · simp [GoMap.set, GoMap.keys, h0]
    · have ih2 : x ∈ List.map Prod.fst (GoMap.set m k v) ↔ x = k ∨ x ∈ List.map Prod.fst m := ih
      simp only [GoMap.set, GoMap.keys, h0, if_false, List.map_cons, List.mem_cons, ih2]
      tauto

theorem GoMap.nodup_keys_set {V : Type} (m : GoMap V) (k : Int) (v : V)
    (h : (GoMap.keys m).Nodup) : (GoMap.keys (GoMap.set m k v)).Nodup := by
  induction m with
  | nil => simp [GoMap.set, GoMap.keys]
  | cons p m ih =>
    obtain ⟨k0, v0⟩ := p
    have hk : GoMap.keys ((k0, v0) :: m) = k0 :: GoMap.keys m := rfl
    rw [hk, List.nodup_cons] at h
    by_cases h0 : k0 = k
    · subst h0
      have e : GoMap.keys (GoMap.set ((k0, v0) :: m) k0 v) = k0 :: GoMap.keys m := by
        simp [GoMap.set, GoMap.keys]
      rw [e, List.nodup_cons]
      exact h
    · have e : GoMap.keys (GoMap.set ((k0, v0) :: m) k v) = k0 :: GoMap.keys (GoMap.set m k v) := by
        simp [GoMap.set, GoMap.keys, h0]
      rw [e, List.nodup_cons]
      refine ⟨?_, ih h.2⟩
      rw [GoMap.mem_keys_set]
      rintro (e1 | e1)
      · exact h0 e1
      · exact h.1 e1

/-! ## The loops of getAlbums -/

theorem groupArtists_foldl_get (l : List Artist) (m : GoMap (List Artist)) (k : Int) :
    GoMap.get (l.foldl (fun m artist =>
        GoMap.set m artist.AlbumId (GoMap.get m artist.AlbumId [] ++ [artist])) m) k []
      = GoMap.get m k [] ++ l.filter (fun a => decide (a.AlbumId = k)) := by
  induction l generalizing m with
  | nil => simp
  | cons a l ih =>
    rw [List.foldl_cons, ih, GoMap.get_set]
    by_cases h : k = a.AlbumId
    · subst h
      simp [List.filter_cons]
    · have h1 : ¬ a.AlbumId = k := fun e => h e.symm
      simp [h, h1, List.filter_cons]

theorem groupArtists_get (l : List Artist) (k : Int) :
    GoMap.get (groupArtists l) k [] = l.filter (fun a => decide (a.AlbumId = k)) := by
  unfold groupArtists
  rw [groupArtists_foldl_get]
  simp [GoMap.get]

theorem indexLabels_foldl_get (l : List Label) (m : GoMap Label) (k : Int) (z : Label) :
    GoMap.get (l.foldl (fun m label => GoMap.set m label.ID label) m) k z
      = ((l.filter (fun x => decide (x.ID = k))).getLast?).getD (GoMap.get m k z) := by
  induction l generalizing m with
  | nil => simp
  | cons a l ih =>
    rw [List.foldl_cons, ih, GoMap.get_set]
    by_cases h : k = a.ID
    · subst h
      simp only [List.filter_cons, decide_True, if_true]
      cases hf : List.filter (fun x => decide (x.ID = a.ID)) l with
      | nil => simp
      | cons b t =>
        rw [List.getLast?_eq_getLast (b :: t) (by simp), List.getLast?_eq_getLast (a :: b :: t) (by simp)]
        simp
    · have h1 : ¬ a.ID = k := fun e => h e.symm
      simp [h, h1, List.filter_cons]

theorem indexLabels_get (l : List Label) (k : Int) :
    GoMap.get (indexLabels l) k Label.zero
      = ((l.filter (fun x => decide (x.ID = k))).getLast?).getD Label.zero := by
  unfold indexLabels
  rw [indexLabels_foldl_get]
  simp [GoMap.get]

theorem labelIdSet_foldl_keys (l : List Int) (m : GoMap Bool) (h : (GoMap.keys m).Nodup) :
    (GoMap.keys (l.foldl (fun m labelId => GoMap.set m labelId true) m)).Nodup ∧
      ∀ x, x ∈ GoMap.keys (l.foldl (fun m labelId => GoMap.set m labelId true) m) ↔
        x ∈ GoMap.keys m ∨ x ∈ l := by
  induction l generalizing m with
  | nil => simp [h]
  | cons a l ih =>
    rw [List.foldl_cons]
    obtain ⟨h1, h2⟩ := ih (GoMap.set m a true) (GoMap.nodup_keys_set m a true h)
    refine ⟨h1, fun x => ?_⟩
    rw [h2, GoMap.mem_keys_set, List.mem_cons]
    tauto

theorem distinctLabelIds_nodup (rt : MapRange) (l : List Int) :
    (distinctLabelIds rt l).Nodup := by
  unfold distinctLabelIds labelIdSet
  exact (rt.perm _).nodup_iff.2 (labelIdSet_foldl_keys l [] (by simp [GoMap.keys])).1

theorem mem_distinctLabelIds (rt : MapRange) (l : List Int) (x : Int) :
    x ∈ distinctLabelIds rt l ↔ x ∈ l := by
  unfold distinctLabelIds labelIdSet
  rw [(rt.perm _).mem_iff, (labelIdSet_foldl_keys l [] (by simp [GoMap.keys])).2]
  simp [GoMap.keys]

theorem buildOutputs_none (am : GoMap (List Artist)) (lm : GoMap Label)
    (albums : List Album) (acc : List AlbumOutput) :
    buildOutputs am lm none albums acc
      = .ok (acc ++ albums.map (fun album =>
          ({ toAlbum := album, Artists := GoMap.get am album.ID [],
             Label := GoMap.get lm album.LabelId Label.zero } : AlbumOutput))) := by
  induction albums generalizing acc with
  | nil => simp [buildOutputs]
  | cons a l ih => simp [buildOutputs, ih]

theorem scanAlbums_acc (rows : List Row) (a : List Int) (b : List Album) (c : List Int)
    (ids : List Int) (albums : List Album) (lids : List Int)
    (h : scanAlbums rows a b c = .ok (ids, albums, lids))
    (ha : a = b.map Album.ID) (hc : c = b.map Album.LabelId) :
    ids = albums.map Album.ID ∧ lids = albums.map Album.LabelId := by
  induction rows generalizing a b c with
  | nil =>
    simp only [scanAlbums, Except.ok.injEq, Prod.mk.injEq] at h
    obtain ⟨h1, h2, h3⟩ := h
    subst h1 h2 h3
    exact ⟨ha, hc⟩
  | cons r rows ih =>
    unfold scanAlbums at h
    split at h
    · exact absurd h (by simp)
    · rename_i album _
      exact ih _ _ _ h (by simp [ha]) (by simp [hc])

/-! ## getAlbums on the path where every store call succeeds -/

theorem getAlbums_ok (db : DB σ) (rt : MapRange) (c : Request) (w w1 w2 w3 : World σ)
    (rows : List Row) (albumIds labelIds : List Int) (albums : List Album)
    (artistsList : List Artist) (labelsList : List Label)
    (hq : w.Query db (albumsQuery c) = (w1, .ok rows))
    (hs : scanAlbums rows [] [] [] = .ok (albumIds, albums, labelIds))
    (ha : getArtistsByAlbumIds db w1 albumIds = (w2, .ok artistsList))
    (hl : getLabelsByLabelIds db w2 (distinctLabelIds rt labelIds) = (w3, .ok labelsList)) :
    getAlbums db rt c w = w3.IndentedJSON StatusOK (.albumOutputs (albums.map (fun album =>
      ({ toAlbum := album,
         Artists := artistsList.filter (fun a => decide (a.AlbumId = album.ID)),
         Label := ((labelsList.filter (fun x => decide (x.ID = album.LabelId))).getLast?).getD
           Label.zero } : AlbumOutput)))) := by
  unfold getAlbums
  rw [hq]
  simp only
  rw [hs]
  simp only
  rw [ha]
  simp only
  rw [hl]
  simp only
  rw [buildOutputs_none]
  simp only [List.nil_append, groupArtists_get, indexLabels_get]

theorem getArtistsByAlbumIds_fst (db : DB σ) (w : World σ) (ids : List Int) :
    (getArtistsByAlbumIds db w ids).1 = (w.Query db (artistsQuery ids)).1 := by
  unfold getArtistsByAlbumIds
  split <;> simp_all

theorem getLabelsByLabelIds_fst (db : DB σ) (w : World σ) (ids : List Int) :
    (getLabelsByLabelIds db w ids).1 = (w.Query db (labelsQuery ids)).1 := by
  unfold getLabelsByLabelIds
  split <;> simp_all

theorem getAlbums_world (db : DB σ) (rt : MapRange) (c : Request) (w w1 w2 w3 : World σ)
    (rows : List Row) (albumIds labelIds : List Int)
    (artistsList : List Artist) (labelsList : List Label)
    (hq : w.Query db (albumsQuery c) = (w1, .ok rows))
    (ha : getArtistsByAlbumIds db w1 albumIds = (w2, .ok artistsList))
    (hl : getLabelsByLabelIds db w2 (distinctLabelIds rt labelIds) = (w3, .ok labelsList)) :
    w3.writes = w.writes ∧ w3.panic = w.panic ∧
      w3.stmts = w.stmts ++ [Stmt.Query (albumsQuery c), Stmt.Query (artistsQuery albumIds),
        Stmt.Query (labelsQuery (distinctLabelIds rt labelIds))] := by
  have e1 : w1 = (w.Query db (albumsQuery c)).1 := by rw [hq]
  have e2 : w2 = (w1.Query db (artistsQuery albumIds)).1 := by
    rw [← getArtistsByAlbumIds_fst, ha]
  have e3 : w3 = (w2.Query db (labelsQuery (distinctLabelIds rt labelIds))).1 := by
    rw [← getLabelsByLabelIds_fst, hl]
  subst e1
  subst e2
  subst e3
  simp [World.Query]

/-! ## The identifier list of a query text -/

theorem digitChar_lt_ten (k : Nat) (h : k < 10) :
    (Nat.digitChar k).toNat - 48 = k ∧ Nat.digitChar k ≠ ',' ∧ Nat.digitChar k ≠ '-' := by
  interval_cases k <;> decide

theorem toDigitsCore_append (f n : Nat) (ds : List Char) :
    Nat.toDigitsCore 10 f n ds = Nat.toDigitsCore 10 f n [] ++ ds := by
  induction f generalizing n ds with
  | zero => simp [Nat.toDigitsCore]
  | succ f ih =>
    simp only [Nat.toDigitsCore]
    split
    · simp
    · rw [ih (n / 10) (Nat.digitChar (n % 10) :: ds), ih (n / 10) [Nat.digitChar (n % 10)]]
      simp

theorem readNat_append_one (cs : List Char) (c : Char) :
    readNat (cs ++ [c]) = readNat cs * 10 + (c.toNat - 48) := by
  simp [readNat, List.foldl_append]

theorem readNat_toDigitsCore (f n : Nat) (h : n < f) :
    readNat (Nat.toDigitsCore 10 f n []) = n := by
  induction f generalizing n with
  | zero => omega
  | succ f ih =>
    simp only [Nat.toDigitsCore]
    split
    · rename_i h0
      have hk := (digitChar_lt_ten (n % 10) (Nat.mod_lt _ (by decide))).1
      simp only [readNat, List.foldl_cons, List.foldl_nil, hk]
      omega
    · rename_i h0
      rw [toDigitsCore_append, readNat_append_one, ih (n / 10) (by omega),
        (digitChar_lt_ten (n % 10) (Nat.mod_lt _ (by decide))).1]
      omega

theorem toDigitsCore_chars (f n : Nat) (c : Char) (hc : c ∈ Nat.toDigitsCore 10 f n []) :
    c ≠ ',' ∧ c ≠ '-' := by
  induction f generalizing n with
  | zero => simp [Nat.toDigitsCore] at hc
  | succ f ih =>
    simp only [Nat.toDigitsCore] at hc
    split at hc
    · simp only [List.mem_singleton] at hc
      subst hc
      exact (digitChar_lt_ten (n % 10) (Nat.mod_lt _ (by decide))).2
    · rw [toDigitsCore_append, List.mem_append, List.mem_singleton] at hc
      rcases hc with hc | hc
      · exact ih _ hc
      · subst hc
        exact (digitChar_lt_ten (n % 10) (Nat.mod_lt _ (by decide))).2

theorem toDigits_ne_nil (n : Nat) : Nat.toDigits 10 n ≠ [] := by
  unfold Nat.toDigits
  simp only [Nat.toDigitsCore]
  split
  · simp
  · rw [toDigitsCore_append]
    simp

theorem FormatInt_data (i : Int) :
    (FormatInt i).data = match i with
      | Int.ofNat m => Nat.toDigits 10 m
      | Int.negSucc m => '-' :: Nat.toDigits 10 (m + 1) := by
  cases i <;> rfl

theorem FormatInt_chars (i : Int) (c : Char) (hc : c ∈ (FormatInt i).data) : c ≠ ',' := by
  rw [FormatInt_data] at hc
  cases i with
  | ofNat m => exact (toDigitsCore_chars _ _ c hc).1
  | negSucc m =>
    simp only [List.mem_cons] at hc
    rcases hc with hc | hc
    · subst hc
      decide
    · exact (toDigitsCore_chars _ _ c hc).1

theorem FormatInt_ne_nil (i : Int) : (FormatInt i).data ≠ [] := by
  rw [FormatInt_data]
  cases i with
  | ofNat m => exact toDigits_ne_nil m
  | negSucc m => simp

theorem readInt_FormatInt (i : Int) : readInt (FormatInt i).data = i := by
  rw [FormatInt_data]
  cases i with
  | ofNat m =>
    simp only
    cases hd : Nat.toDigits 10 m with
    | nil => exact absurd hd (toDigits_ne_nil m)
    | cons c cs =>
      have hc : c ≠ '-' := (toDigitsCore_chars (m + 1) m c (by
        have : c ∈ Nat.toDigits 10 m := by rw [hd]; simp
        exact this)).2
      simp only [readInt, hc, if_false]
      rw [← hd]
      have := readNat_toDigitsCore (m + 1) m (by omega)
      unfold Nat.toDigits
      rw [this]
      rfl
  | negSucc m =>
    simp only [readInt, if_true]
    have := readNat_toDigitsCore (m + 1 + 1) (m + 1) (by omega)
    unfold Nat.toDigits
    rw [this]
    rfl

theorem intercalate_go_data (acc : String) (l : List String) :
    (String.intercalate.go acc "," l).data = acc.data ++ commaEach (l.map String.data) := by
  induction l generalizing acc with
  | nil => simp [String.intercalate.go, commaEach]
  | cons a l ih =>
    rw [String.intercalate.go, ih]
    simp [commaEach, String.data_append]

theorem splitCommas_append (p rest : List Char) (hp : ∀ c ∈ p, c ≠ ',') :
    splitCommas (p ++ ',' :: rest) = p :: splitCommas rest := by
  induction p with
  | nil => simp [splitCommas]
  | cons c p ih =>
    have hc : c ≠ ',' := hp c (by simp)
    have ih2 := ih (fun x hx => hp x (by simp [hx]))
    rw [List.cons_append, splitCommas, if_neg hc, ih2]

theorem splitCommas_piece (p : List Char) (hp : ∀ c ∈ p, c ≠ ',') :
    splitCommas p = [p] := by
  induction p with
  | nil => simp [splitCommas]
  | cons c p ih =>
    have hc : c ≠ ',' := hp c (by simp)
    have ih2 := ih (fun x hx => hp x (by simp [hx]))
    simp only [splitCommas, hc, if_false, ih2]

theorem splitCommas_commaEach (p : List Char) (ps : List (List Char))
    (hp : ∀ c ∈ p, c ≠ ',') (hps : ∀ q ∈ ps, ∀ c ∈ q, c ≠ ',') :
    splitCommas (p ++ commaEach ps) = p :: ps := by
  induction ps generalizing p with
  | nil => simpa [commaEach] using splitCommas_piece p hp
  | cons q ps ih =>
    simp only [commaEach]
    rw [splitCommas_append p _ hp, ih q (hps q (by simp)) (fun r hr => hps r (by simp [hr]))]

/-- Reading the comma-joined decimal list back gives the identifiers that
were joined, each once and in order. -/
theorem readIds_joinIds (ids : List Int) : readIds (joinIds ids) = ids := by
  cases ids with
  | nil => rfl
  | cons a as =>
    have hd : (joinIds (a :: as)).data
        = (FormatInt a).data ++ commaEach ((as.map FormatInt).map String.data) := by
      unfold joinIds
      rw [List.map_cons, String.intercalate, intercalate_go_data]
    have hne : (joinIds (a :: as)).data ≠ [] := by
      rw [hd]
      intro h
      exact FormatInt_ne_nil a (List.append_eq_nil.1 h).1
    unfold readIds
    rw [if_neg hne, hd, splitCommas_commaEach _ _ (FormatInt_chars a)]
    · simp only [List.map_cons, List.map_map, readInt_FormatInt, List.cons.injEq, true_and]
      conv_rhs => rw [← List.map_id as]
      apply List.map_congr_left
      intro x _
      simp [readInt_FormatInt]
    · intro q hq c hc
      simp only [List.map_map, List.mem_map, Function.comp] at hq
      obtain ⟨x, _, rfl⟩ := hq
      exact FormatInt_chars x c hc

/-- The joined text of a few identifiers, a negative one and zero among
them, and what is read back from it. -/
theorem joinIds_sample :
    joinIds [1, -20, 0, 305] = "1,-20,0,305" ∧ readIds "1,-20,0,305" = [1, -20, 0, 305] := by
  decide

/-! ## Claims about getAlbums -/

/-- C1: when the album query, the row scans and both fetchers succeed,
`getAlbums` writes one 200 response whose list has the length of the album
list read, and whose i-th record has the i-th album as its Album part. -/
theorem getAlbums_preserves_albums (db : DB σ) (rt : MapRange) (c : Request) (w w1 w2 w3 : World σ)
    (rows : List Row) (albumIds labelIds : List Int) (albums : List Album)
    (artistsList : List Artist) (labelsList : List Label)
    (hq : w.Query db (albumsQuery c) = (w1, .ok rows))
    (hs : scanAlbums rows [] [] [] = .ok (albumIds, albums, labelIds))
    (ha : getArtistsByAlbumIds db w1 albumIds = (w2, .ok artistsList))
    (hl : getLabelsByLabelIds db w2 (distinctLabelIds rt labelIds) = (w3, .ok labelsList)) :
    ∃ outs : List AlbumOutput,
      (getAlbums db rt c w).writes = w.writes ++ [⟨StatusOK, true, .albumOutputs outs⟩] ∧
      outs.length = albums.length ∧
      ∀ i : Nat, (outs[i]?).map AlbumOutput.toAlbum = albums[i]? := by
  have hw := (getAlbums_world db rt c w w1 w2 w3 rows albumIds labelIds artistsList labelsList
    hq ha hl).1
  refine ⟨(albums.map (fun album =>
      ({ toAlbum := album,
         Artists := artistsList.filter (fun a => decide (a.AlbumId = album.ID)),
         Label := ((labelsList.filter (fun x => decide (x.ID = album.LabelId))).getLast?).getD
           Label.zero } : AlbumOutput))), ?_, ?_, ?_⟩
  · rw [getAlbums_ok db rt c w w1 w2 w3 rows albumIds labelIds albums artistsList labelsList
      hq hs ha hl]
    simp only [World.IndentedJSON, hw]
  · simp
  · intro i
    rw [List.getElem?_map, Option.map_map]
    cases albums[i]? <;> simp

theorem getAlbums_preserves_albums_witness :
    ∃ outs : List AlbumOutput,
      (getAlbums sampleDB MapRange.inOrder plainRequest World.start).writes
        = World.start.writes ++ [⟨StatusOK, true, .albumOutputs outs⟩] ∧
      outs.length = sampleAlbums.length ∧
      ∀ i : Nat, (outs[i]?).map AlbumOutput.toAlbum = sampleAlbums[i]? :=
  getAlbums_preserves_albums sampleDB MapRange.inOrder plainRequest World.start _ _ _ sampleRows
    [1, 2] [1, 9] sampleAlbums sampleArtists sampleLabels rfl rfl rfl rfl

/-- C2: on the same path, the artists of the i-th output record are the
fetched artists whose AlbumId is the i-th album's ID, in fetch order; an
album no fetched artist refers to gets no artists, and a fetched artist
whose AlbumId is no input album's ID is in no output record. -/
theorem getAlbums_artists_grouped (db : DB σ) (rt : MapRange) (c : Request) (w w1 w2 w3 : World σ)
    (rows : List Row) (albumIds labelIds : List Int) (albums : List Album)
    (artistsList : List Artist) (labelsList : List Label)
    (hq : w.Query db (albumsQuery c) = (w1, .ok rows))
    (hs : scanAlbums rows [] [] [] = .ok (albumIds, albums, labelIds))
    (ha : getArtistsByAlbumIds db w1 albumIds = (w2, .ok artistsList))
    (hl : getLabelsByLabelIds db w2 (distinctLabelIds rt labelIds) = (w3, .ok labelsList)) :
    ∃ outs : List AlbumOutput,
      (getAlbums db rt c w).writes = w.writes ++ [⟨StatusOK, true, .albumOutputs outs⟩] ∧
      outs.length = albums.length ∧
      (∀ (i : Nat) (album : Album), albums[i]? = some album →
        (outs[i]?).map AlbumOutput.Artists
          = some (artistsList.filter (fun a => decide (a.AlbumId = album.ID)))) ∧
      (∀ (i : Nat) (album : Album), albums[i]? = some album → (∀ a ∈ artistsList, a.AlbumId ≠ album.ID) →
        (outs[i]?).map AlbumOutput.Artists = some []) ∧
      (∀ a ∈ artistsList, (∀ album ∈ albums, album.ID ≠ a.AlbumId) →
        ∀ o ∈ outs, a ∉ o.Artists) := by
  have hw := (getAlbums_world db rt c w w1 w2 w3 rows albumIds labelIds artistsList labelsList
    hq ha hl).1
  have key : ∀ (i : Nat) (album : Album), albums[i]? = some album →
      ((albums.map (fun album =>
        ({ toAlbum := album,
           Artists := artistsList.filter (fun a => decide (a.AlbumId = album.ID)),
           Label := ((labelsList.filter (fun x => decide (x.ID = album.LabelId))).getLast?).getD
             Label.zero } : AlbumOutput)))[i]?).map AlbumOutput.Artists
        = some (artistsList.filter (fun a => decide (a.AlbumId = album.ID))) := by
    intro i album hi
    rw [List.getElem?_map, hi]
    rfl
  refine ⟨(albums.map (fun album =>
      ({ toAlbum := album,
         Artists := artistsList.filter (fun a => decide (a.AlbumId = album.ID)),
         Label := ((labelsList.filter (fun x => decide (x.ID = album.LabelId))).getLast?).getD
           Label.zero } : AlbumOutput))), ?_, ?_, key, ?_, ?_⟩
  · rw [getAlbums_ok db rt c w w1 w2 w3 rows albumIds labelIds albums artistsList labelsList
      hq hs ha hl]
    simp only [World.IndentedJSON, hw]
  · simp
  · intro i album hi hno
    rw [key i album hi]
    congr 1
    rw [List.filter_eq_nil_iff]
    intro a ha'
    simpa using hno a ha'
  · intro a hmem hno o ho hin
    rw [List.mem_map] at ho
    obtain ⟨album, halb, rfl⟩ := ho
    simp only [List.mem_filter, decide_eq_true_eq] at hin
    exact hno album halb hin.2.symm

theorem getAlbums_artists_grouped_witness :
    ∃ outs : List AlbumOutput,
      (getAlbums sampleDB MapRange.inOrder plainRequest World.start).writes
        = World.start.writes ++ [⟨StatusOK, true, .albumOutputs outs⟩] ∧
      outs.length = sampleAlbums.length ∧
      (∀ (i : Nat) (album : Album), sampleAlbums[i]? = some album →
        (outs[i]?).map AlbumOutput.Artists
          = some (sampleArtists.filter (fun a => decide (a.AlbumId = album.ID)))) ∧
      (∀ (i : Nat) (album : Album), sampleAlbums[i]? = some album →
        (∀ a ∈ sampleArtists, a.AlbumId ≠ album.ID) →
        (outs[i]?).map AlbumOutput.Artists = some []) ∧
      (∀ a ∈ sampleArtists, (∀ album ∈ sampleAlbums, album.ID ≠ a.AlbumId) →
        ∀ o ∈ outs, a ∉ o.Artists) :=
  getAlbums_artists_grouped sampleDB MapRange.inOrder plainRequest World.start _ _ _ sampleRows
    [1, 2] [1, 9] sampleAlbums sampleArtists sampleLabels rfl rfl rfl rfl

/-- C3: on the same path, the label of the i-th output record is the last
fetched label whose ID is the i-th album's LabelId, and it is the zero Label
when no fetched label has that ID; the handler still answers 200 and does
not panic. -/
theorem getAlbums_label_lookup (db : DB σ) (rt : MapRange) (c : Request) (w w1 w2 w3 : World σ)
    (rows : List Row) (albumIds labelIds : List Int) (albums : List Album)
    (artistsList : List Artist) (labelsList : List Label)
    (hq : w.Query db (albumsQuery c) = (w1, .ok rows))
    (hs : scanAlbums rows [] [] [] = .ok (albumIds, albums, labelIds))
    (ha : getArtistsByAlbumIds db w1 albumIds = (w2, .ok artistsList))
    (hl : getLabelsByLabelIds db w2 (distinctLabelIds rt labelIds) = (w3, .ok labelsList)) :
    ∃ outs : List AlbumOutput,
      (getAlbums db rt c w).writes = w.writes ++ [⟨StatusOK, true, .albumOutputs outs⟩] ∧
      (getAlbums db rt c w).panic = w.panic ∧
      outs.length = albums.length ∧
      (∀ (i : Nat) (album : Album), albums[i]? = some album →
        (outs[i]?).map AlbumOutput.Label
          = some (((labelsList.filter (fun x => decide (x.ID = album.LabelId))).getLast?).getD
              Label.zero)) ∧
      (∀ (i : Nat) (album : Album), albums[i]? = some album → (∀ l ∈ labelsList, l.ID ≠ album.LabelId) →
        (outs[i]?).map AlbumOutput.Label = some Label.zero) := by
  have hw := getAlbums_world db rt c w w1 w2 w3 rows albumIds labelIds artistsList labelsList
    hq ha hl
  have key : ∀ (i : Nat) (album : Album), albums[i]? = some album →
      ((albums.map (fun album =>
        ({ toAlbum := album,
           Artists := artistsList.filter (fun a => decide (a.AlbumId = album.ID)),
           Label := ((labelsList.filter (fun x => decide (x.ID = album.LabelId))).getLast?).getD
             Label.zero } : AlbumOutput)))[i]?).map AlbumOutput.Label
        = some (((labelsList.filter (fun x => decide (x.ID = album.LabelId))).getLast?).getD
            Label.zero) := by
    intro i album hi
    rw [List.getElem?_map, hi]
    rfl
  have eq := getAlbums_ok db rt c w w1 w2 w3 rows albumIds labelIds albums artistsList
    labelsList hq hs ha hl
  refine ⟨(albums.map (fun album =>
      ({ toAlbum := album,
         Artists := artistsList.filter (fun a => decide (a.AlbumId = album.ID)),
         Label := ((labelsList.filter (fun x => decide (x.ID = album.LabelId))).getLast?).getD
           Label.zero } : AlbumOutput))), ?_, ?_, ?_, key, ?_⟩
  · rw [eq]
    simp only [World.IndentedJSON, hw.1]
  · rw [eq]
    simp only [World.IndentedJSON, hw.2.1]
  · simp
  · intro i album hi hno
    rw [key i album hi]
    have hnil : labelsList.filter (fun x => decide (x.ID = album.LabelId)) = [] := by
      rw [List.filter_eq_nil_iff]
      intro l hl'
      simpa using hno l hl'
    rw [hnil]
    rfl

theorem getAlbums_label_lookup_witness :
    ∃ outs : List AlbumOutput,
      (getAlbums sampleDB MapRange.inOrder plainRequest World.start).writes
        = World.start.writes ++ [⟨StatusOK, true, .albumOutputs outs⟩] ∧
      (getAlbums sampleDB MapRange.inOrder plainRequest World.start).panic
        = World.start.panic ∧
      outs.length = sampleAlbums.length ∧
      (∀ (i : Nat) (album : Album), sampleAlbums[i]? = some album →
        (outs[i]?).map AlbumOutput.Label
          = some (((sampleLabels.filter (fun x => decide (x.ID = album.LabelId))).getLast?).getD
              Label.zero)) ∧
      (∀ (i : Nat) (album : Album), sampleAlbums[i]? = some album →
        (∀ l ∈ sampleLabels, l.ID ≠ album.LabelId) →
        (outs[i]?).map AlbumOutput.Label = some Label.zero) :=
  getAlbums_label_lookup sampleDB MapRange.inOrder plainRequest World.start _ _ _ sampleRows
    [1, 2] [1, 9] sampleAlbums sampleArtists sampleLabels rfl rfl rfl rfl

/-- C4: on the same path, whatever the number of albums, the statements
`getAlbums` sends to the store are the album query, then one artist query,
then one label query. The artist query is the text
`SELECT * FROM artists WHERE album_id in (...)` around the comma-joined
decimal list of the album IDs, and reading that list back gives the ID of
every album read, in order. The label query is the text
`SELECT * FROM labels WHERE id in (...)` around the comma-joined list of
`lids`, reading it back gives `lids`, and `lids` has no repetition and holds
exactly the LabelIds of the albums read. -/
theorem getAlbums_batches_queries (db : DB σ) (rt : MapRange) (c : Request) (w w1 w2 w3 : World σ)
    (rows : List Row) (albumIds labelIds : List Int) (albums : List Album)
    (artistsList : List Artist) (labelsList : List Label)
    (hq : w.Query db (albumsQuery c) = (w1, .ok rows))
    (hs : scanAlbums rows [] [] [] = .ok (albumIds, albums, labelIds))
    (ha : getArtistsByAlbumIds db w1 albumIds = (w2, .ok artistsList))
    (hl : getLabelsByLabelIds db w2 (distinctLabelIds rt labelIds) = (w3, .ok labelsList)) :
    ∃ lids : List Int,
      (getAlbums db rt c w).stmts = w.stmts ++ [Stmt.Query (albumsQuery c),
        Stmt.Query ("SELECT * FROM artists WHERE album_id in ("
          ++ joinIds (albums.map Album.ID) ++ ")"),
        Stmt.Query ("SELECT * FROM labels WHERE id in (" ++ joinIds lids ++ ")")] ∧
      readIds (joinIds (albums.map Album.ID)) = albums.map Album.ID ∧
      readIds (joinIds lids) = lids ∧
      lids.Nodup ∧
      ∀ x, x ∈ lids ↔ ∃ album ∈ albums, album.LabelId = x := by
  have hw := getAlbums_world db rt c w w1 w2 w3 rows albumIds labelIds artistsList labelsList
    hq ha hl
  have eq := getAlbums_ok db rt c w w1 w2 w3 rows albumIds labelIds albums artistsList
    labelsList hq hs ha hl
  obtain ⟨hi, hli⟩ := scanAlbums_acc rows [] [] [] albumIds albums labelIds hs rfl rfl
  refine ⟨distinctLabelIds rt labelIds, ?_, readIds_joinIds _, readIds_joinIds _,
    distinctLabelIds_nodup rt labelIds, ?_⟩
  · rw [eq]
    simp only [World.IndentedJSON, hw.2.2, hi]
    rfl
  · intro x
    rw [mem_distinctLabelIds, hli, List.mem_map]

theorem getAlbums_batches_queries_witness :
    ∃ lids : List Int,
      (getAlbums sampleDB MapRange.inOrder plainRequest World.start).stmts
        = World.start.stmts ++ [Stmt.Query (albumsQuery plainRequest),
            Stmt.Query ("SELECT * FROM artists WHERE album_id in ("
              ++ joinIds (sampleAlbums.map Album.ID) ++ ")"),
            Stmt.Query ("SELECT * FROM labels WHERE id in (" ++ joinIds lids ++ ")")] ∧
      readIds (joinIds (sampleAlbums.map Album.ID)) = sampleAlbums.map Album.ID ∧
      readIds (joinIds lids) = lids ∧
      lids.Nodup ∧
      ∀ x, x ∈ lids ↔ ∃ album ∈ sampleAlbums, album.LabelId = x :=
  getAlbums_batches_queries sampleDB MapRange.inOrder plainRequest World.start _ _ _ sampleRows
    [1, 2] [1, 9] sampleAlbums sampleArtists sampleLabels rfl rfl rfl rfl

/-! ## The fetchers on an empty list of identifiers -/

/-- C5, as stated, fails: given no identifiers, both fetchers still send a
query, with the filter `in ()`; on a store that rejects that text they
return its error, not an empty sequence. -/
theorem fetchers_empty_ids_still_query :
    (getLabelsByLabelIds strictDB World.start []).1.stmts
        = [Stmt.Query "SELECT * FROM labels WHERE id in ()"] ∧
      (getLabelsByLabelIds strictDB World.start []).2
        = .error (.other "syntax error near )") ∧
      (getArtistsByAlbumIds strictDB World.start []).1.stmts
        = [Stmt.Query "SELECT * FROM artists WHERE album_id in ()"] ∧
      (getArtistsByAlbumIds strictDB World.start []).2
        = .error (.other "syntax error near )") := by
  refine ⟨rfl, rfl, rfl, rfl⟩

/-- C5, amended: given no identifiers, each fetcher sends exactly one
query, whose filter is the empty `in ()`, and returns what the store makes
of it: the store's error if it rejects the text, otherwise the rows it
answers with, scanned (so the empty sequence when it answers with no
rows). -/
theorem fetchers_empty_ids (db : DB σ) (w : World σ) :
    (getLabelsByLabelIds db w []).1.stmts
        = w.stmts ++ [Stmt.Query "SELECT * FROM labels WHERE id in ()"] ∧
      (getLabelsByLabelIds db w []).2
        = (match (db.Query w.store "SELECT * FROM labels WHERE id in ()").2 with
           | .error err => .error err
           | .ok rows => scanLabels rows []) ∧
      (getArtistsByAlbumIds db w []).1.stmts
        = w.stmts ++ [Stmt.Query "SELECT * FROM artists WHERE album_id in ()"] ∧
      (getArtistsByAlbumIds db w []).2
        = (match (db.Query w.store "SELECT * FROM artists WHERE album_id in ()").2 with
           | .error err => .error err
           | .ok rows => scanArtists rows []) := by
  have e1 : labelsQuery [] = "SELECT * FROM labels WHERE id in ()" := by decide
  have e2 : artistsQuery [] = "SELECT * FROM artists WHERE album_id in ()" := by decide
  refine ⟨?_, ?_, ?_, ?_⟩
  · rw [getLabelsByLabelIds_fst, e1]
    rfl
  · unfold getLabelsByLabelIds World.Query
    rw [e1]
    cases (db.Query w.store "SELECT * FROM labels WHERE id in ()").2 <;> rfl
  · rw [getArtistsByAlbumIds_fst, e2]
    rfl
  · unfold getArtistsByAlbumIds World.Query
    rw [e2]
    cases (db.Query w.store "SELECT * FROM artists WHERE album_id in ()").2 <;> rfl

/-! ## getAlbumById -/

/-- C6: when the album row is found and both fetches succeed, `getAlbumById`
panics on `labels[0]` (index out of range, nothing written) exactly when the
label fetch returned no row; when it returned at least one row the handler
writes one 200 response whose AlbumOutput has the album, the fetched artists
and the first fetched label. -/
theorem getAlbumById_label_index (db : DB σ) (c : Request) (w w1 w2 w3 : World σ) (row : Row)
    (album : Album) (artists : List Artist) (labels : List Label)
    (hp : w.panic = none)
    (hq : w.QueryRow db "SELECT * FROM albums WHERE id=?" [.str (c.Param "id")] = (w1, row))
    (hs : row.ScanAlbum Album.zero = (album, none))
    (ha : getArtistsByAlbumIds db w1 [album.ID] = (w2, .ok artists))
    (hl : getLabelsByLabelIds db w2 [album.LabelId] = (w3, .ok labels)) :
    ((getAlbumById db c w).panic = some "runtime error: index out of range [0] with length 0"
        ↔ labels = []) ∧
      (labels = [] → (getAlbumById db c w).writes = w.writes) ∧
      (∀ label rest, labels = label :: rest →
        (getAlbumById db c w).panic = none ∧
        (getAlbumById db c w).writes = w.writes ++ [⟨StatusOK, false,
          .albumOutput { toAlbum := album, Artists := artists, Label := label }⟩]) := by
  have e1 : w1 = (w.QueryRow db "SELECT * FROM albums WHERE id=?" [.str (c.Param "id")]).1 := by
    rw [hq]
  have e2 : w2 = (w1.Query db (artistsQuery [album.ID])).1 := by
    rw [← getArtistsByAlbumIds_fst, ha]
  have e3 : w3 = (w2.Query db (labelsQuery [album.LabelId])).1 := by
    rw [← getLabelsByLabelIds_fst, hl]
  have hw : w3.writes = w.writes := by
    subst e1
    subst e2
    subst e3
    rfl
  have hp3 : w3.panic = none := by
    subst e1
    subst e2
    subst e3
    exact hp
  cases labels with
  | nil =>
    have eq : getAlbumById db c w
        = { w3 with panic := some "runtime error: index out of range [0] with length 0" } := by
      unfold getAlbumById
      rw [hq]
      simp only
      rw [hs]
      simp only
      rw [ha]
      simp only
      rw [hl]
    rw [eq]
    simp [hw]
  | cons label rest =>
    have eq : getAlbumById db c w = w3.JSON StatusOK
        (.albumOutput { toAlbum := album, Artists := artists, Label := label }) := by
      unfold getAlbumById
      rw [hq]
      simp only
      rw [hs]
      simp only
      rw [ha]
      simp only
      rw [hl]
    rw [eq]
    simp [World.JSON, hw, hp3]

theorem getAlbumById_label_index_witness :
    ((getAlbumById (fixedDB sampleRows (Row.assignId 1)) plainRequest World.start).panic
        = some "runtime error: index out of range [0] with length 0"
        ↔ sampleLabels = []) ∧
      (sampleLabels = [] →
        (getAlbumById (fixedDB sampleRows (Row.assignId 1)) plainRequest World.start).writes
          = World.start.writes) ∧
      (∀ label rest, sampleLabels = label :: rest →
        (getAlbumById (fixedDB sampleRows (Row.assignId 1)) plainRequest World.start).panic
          = none ∧
        (getAlbumById (fixedDB sampleRows (Row.assignId 1)) plainRequest World.start).writes
          = World.start.writes ++ [⟨StatusOK, false,
              .albumOutput { toAlbum := ⟨1, "", ⟨0⟩, 0⟩, Artists := sampleArtists,
                             Label := label }⟩]) :=
  getAlbumById_label_index (fixedDB sampleRows (Row.assignId 1)) plainRequest World.start
    _ _ _ (Row.assignId 1) ⟨1, "", ⟨0⟩, 0⟩ sampleArtists sampleLabels rfl rfl rfl rfl rfl

/-- The panic path of `getAlbumById`, evaluated: the album row is found, the
store answers both fetches with no rows, and the handler stops at
`labels[0]` having written no response. -/
theorem getAlbumById_missing_label_panics :
    (getAlbumById echoDB plainRequest World.start).panic
        = some "runtime error: index out of range [0] with length 0" ∧
      (getAlbumById echoDB plainRequest World.start).writes = [] := by
  refine ⟨rfl, rfl⟩

/-- C7: when the scan of the album row fails, `getAlbumById` has sent the
store the one row lookup and nothing else (neither fetcher ran), does not
panic, and writes exactly one response: 404 with the message
"album not found" if the error is `sql.ErrNoRows`, and 400 with the error
text for any other error. -/
theorem getAlbumById_lookup_failure (db : DB σ) (c : Request) (w w1 : World σ) (row : Row)
    (dest : Album) (err : GoErr)
    (hq : w.QueryRow db "SELECT * FROM albums WHERE id=?" [.str (c.Param "id")] = (w1, row))
    (hs : row.ScanAlbum Album.zero = (dest, some err)) :
    (getAlbumById db c w).stmts
        = w.stmts ++ [Stmt.QueryRow "SELECT * FROM albums WHERE id=?" [.str (c.Param "id")]] ∧
      (getAlbumById db c w).panic = w.panic ∧
      (err = .ErrNoRows →
        (getAlbumById db c w).writes
          = w.writes ++ [⟨StatusNotFound, false, .message "album not found"⟩]) ∧
      (err ≠ .ErrNoRows →
        (getAlbumById db c w).writes
          = w.writes ++ [⟨StatusBadRequest, false, .error err.Error⟩]) := by
  have e1 : w1 = (w.QueryRow db "SELECT * FROM albums WHERE id=?" [.str (c.Param "id")]).1 := by
    rw [hq]
  have eq : getAlbumById db c w =
      (if err.isErrNoRows then w1.JSON StatusNotFound (.message "album not found")
       else w1.JSON StatusBadRequest (.error err.Error)) := by
    unfold getAlbumById
    rw [hq]
    simp only
    rw [hs]
  rw [eq]
  subst e1
  cases err with
  | ErrNoRows => simp [GoErr.isErrNoRows, World.JSON, World.QueryRow]
  | other text => simp [GoErr.isErrNoRows, World.JSON, World.QueryRow]

theorem getAlbumById_lookup_failure_witness :
    (getAlbumById sampleDB plainRequest World.start).stmts
        = World.start.stmts
          ++ [Stmt.QueryRow "SELECT * FROM albums WHERE id=?" [.str (plainRequest.Param "id")]] ∧
      (getAlbumById sampleDB plainRequest World.start).panic = World.start.panic ∧
      (GoErr.ErrNoRows = .ErrNoRows →
        (getAlbumById sampleDB plainRequest World.start).writes
          = World.start.writes ++ [⟨StatusNotFound, false, .message "album not found"⟩]) ∧
      (GoErr.ErrNoRows ≠ .ErrNoRows →
        (getAlbumById sampleDB plainRequest World.start).writes
          = World.start.writes
            ++ [⟨StatusBadRequest, false, .error (GoErr.Error .ErrNoRows)⟩]) :=
  getAlbumById_lookup_failure sampleDB plainRequest World.start _ Row.noRows Album.zero
    .ErrNoRows rfl rfl

/-! ## Binding failures and the number of response writes -/

/-- On a binding failure `postAlbums`, `postArtist` and `putAlbums` write
400 with the text of the binding error, once, and leave the store and the
statement log as they were. -/
theorem bind_failure_returns (db : DB σ) (c : Request) (w : World σ) :
    (∀ dest err, c.BindAlbum Album.zero = (dest, some err) →
      postAlbums db c w = w.IndentedJSON StatusBadRequest (.error err.Error) ∧
      putAlbums db c w = w.IndentedJSON StatusBadRequest (.error err.Error)) ∧
    (∀ dest err, c.BindArtist Artist.zero = (dest, some err) →
      postArtist db c w = w.IndentedJSON StatusBadRequest (.error err.Error)) := by
  refine ⟨fun dest err h => ⟨?_, ?_⟩, fun dest err h => ?_⟩
  · unfold postAlbums
    rw [h]
  · unfold putAlbums
    rw [h]
  · unfold postArtist
    rw [h]

/-- C8 fails on `postLabel`: with a body that does not bind (error text
"unexpected EOF") the first response is 400 with the fixed message
"label not found", not the error text, and a second response, 201, follows
it. -/
theorem postLabel_bind_failure_writes :
    (postLabel echoDB (badBodyRequest "unexpected EOF") World.start).writes
      = [⟨StatusBadRequest, true, .message "label not found"⟩,
         ⟨StatusCreated, true, .label ⟨7, "", ""⟩⟩] := by
  rfl

/-- C9 fails on `postLabel`: with a body that does not bind, the handler
still sends the `INSERT` (with the label as binding left it) and the
read-back. -/
theorem postLabel_bind_failure_inserts :
    (postLabel echoDB (badBodyRequest "unexpected EOF") World.start).stmts
      = [Stmt.Exec "INSERT INTO labels (name, country) VALUES(?,?)" [.str "", .str ""],
         Stmt.QueryRow "SELECT * FROM labels WHERE id=?" [.int 7]] := by
  rfl

/-- C10 fails: when the body binds, the `INSERT` succeeds and the read-back
scan returns `sql.ErrNoRows`, `postAlbums` writes three responses (404, 400,
201) and `postArtist` two (404, 201). -/
theorem post_handlers_write_more_than_once :
    (postAlbums sampleDB plainRequest World.start).writes
        = [⟨StatusNotFound, false, .message "album not found"⟩,
           ⟨StatusBadRequest, true, .error "sql: no rows in result set"⟩,
           ⟨StatusCreated, true, .album Album.zero⟩] ∧
      (postArtist sampleDB plainRequest World.start).writes
        = [⟨StatusNotFound, false, .message "artist not found"⟩,
           ⟨StatusCreated, true, .artist Artist.zero⟩] := by
  refine ⟨rfl, rfl⟩

theorem World.Query_writes (db : DB σ) (w w1 : World σ) (text : String)
    (r : Except GoErr (List Row)) (h : w.Query db text = (w1, r)) : w1.writes = w.writes := by
  have e : w1 = (w.Query db text).1 := by rw [h]
  rw [e]
  rfl

theorem World.QueryRow_writes (db : DB σ) (w w1 : World σ) (text : String) (args : List Arg)
    (r : Row) (h : w.QueryRow db text args = (w1, r)) : w1.writes = w.writes := by
  have e : w1 = (w.QueryRow db text args).1 := by rw [h]
  rw [e]
  rfl

theorem World.Exec_writes (db : DB σ) (w w1 : World σ) (text : String) (args : List Arg)
    (r : Except GoErr Int) (h : w.Exec db text args = (w1, r)) : w1.writes = w.writes := by
  have e : w1 = (w.Exec db text args).1 := by rw [h]
  rw [e]
  rfl

theorem getArtistsByAlbumIds_writes (db : DB σ) (w w1 : World σ) (ids : List Int)
    (r : Except GoErr (List Artist)) (h : getArtistsByAlbumIds db w ids = (w1, r)) :
    w1.writes = w.writes := by
  have e : w1 = (getArtistsByAlbumIds db w ids).1 := by rw [h]
  rw [e, getArtistsByAlbumIds_fst]
  rfl

theorem getLabelsByLabelIds_writes (db : DB σ) (w w1 : World σ) (ids : List Int)
    (r : Except GoErr (List Label)) (h : getLabelsByLabelIds db w ids = (w1, r)) :
    w1.writes = w.writes := by
  have e : w1 = (getLabelsByLabelIds db w ids).1 := by rw [h]
  rw [e, getLabelsByLabelIds_fst]
  rfl

/-- The handlers `putAlbums` and `deleteAlbumsById` write exactly one
response on every path. -/
theorem put_delete_write_once (db : DB σ) (c : Request) (w : World σ) :
    (putAlbums db c w).writes.length = w.writes.length + 1 ∧
      (deleteAlbumsById db c w).writes.length = w.writes.length + 1 := by
  constructor
  · unfold putAlbums
    split
    · simp [World.IndentedJSON]
    · split
      · rename_i h
        simp [World.IndentedJSON, World.Exec_writes _ _ _ _ _ _ h]
      · rename_i h
        split
        rename_i h2
        have hw := World.QueryRow_writes _ _ _ _ _ _ h2
        have hw1 := World.Exec_writes _ _ _ _ _ _ h
        split
        · split <;> simp [World.JSON, hw, hw1]
        · simp [World.JSON, hw, hw1]
  · unfold deleteAlbumsById
    split
    · rename_i h
      split <;> simp [World.JSON, World.Exec_writes _ _ _ _ _ _ h]
    · rename_i h
      simp [World.JSON, World.Exec_writes _ _ _ _ _ _ h]

/-- The handler `getAlbums` writes exactly one response on every path. -/
theorem getAlbums_writes_once (db : DB σ) (rt : MapRange) (c : Request) (w : World σ) :
    (getAlbums db rt c w).writes.length = w.writes.length + 1 := by
  unfold getAlbums
  split
  · rename_i h
    simp [World.IndentedJSON, World.Query_writes _ _ _ _ _ h]
  · rename_i h
    have hw1 := World.Query_writes _ _ _ _ _ h
    split
    · simp [World.IndentedJSON, hw1]
    · split
      · rename_i h2
        simp [World.IndentedJSON, hw1, getArtistsByAlbumIds_writes _ _ _ _ _ h2]
      · rename_i h2
        have hw2 := getArtistsByAlbumIds_writes _ _ _ _ _ h2
        simp only
        split
        · rename_i h3
          simp [World.IndentedJSON, hw1, hw2, getLabelsByLabelIds_writes _ _ _ _ _ h3]
        · rename_i h3
          have hw3 := getLabelsByLabelIds_writes _ _ _ _ _ h3
          split <;> simp [World.IndentedJSON, hw1, hw2, hw3]

/-! ## The sample store, evaluated -/

/-- The response of `getAlbums` on the sample store: album 1 with both
artists and label 1, album 2 with no artist and the zero Label. -/
theorem getAlbums_sample_writes :
    (getAlbums sampleDB MapRange.inOrder plainRequest World.start).writes
      = [⟨StatusOK, true, .albumOutputs
          [ { toAlbum := ⟨1, "X", ⟨0⟩, 1⟩, Artists := [⟨1, "Y", 1⟩, ⟨2, "W", 1⟩],
              Label := ⟨1, "Indie Co", "US"⟩ },
            { toAlbum := ⟨2, "Z", ⟨5⟩, 9⟩, Artists := [], Label := Label.zero } ]⟩] := by
  rfl

/-- The statements of `getAlbums` on the sample store when the runtime walks
the label-id map backwards. -/
theorem getAlbums_sample_stmts_reversed :
    (getAlbums sampleDB MapRange.reversed plainRequest World.start).stmts
      = [Stmt.Query "SELECT * FROM albums",
         Stmt.Query "SELECT * FROM artists WHERE album_id in (1,2)",
         Stmt.Query "SELECT * FROM labels WHERE id in (9,1)"] := by
  rfl

end MusicApi
